import Mathlib

/-!
Shallow embedding of the financial-data extraction and ratio/metrics pipeline
of the Elimentary repository (Node/Express + Mongoose).

JavaScript numbers are modelled by `JVal`: a finite rational, `Infinity`,
`-Infinity`, or `NaN`.  All inputs that the claims quantify over are finite
non-NaN numbers (the claims' own precondition), so field values are plain `ℚ`;
`JVal` appears where the code's arithmetic can itself produce `Infinity`/`NaN`
(division, and multiplication/addition on division results).  Rationals stand
in for IEEE doubles: none of the claims depends on rounding, only on
zero-denominator behaviour, sign tests, and threshold comparisons.
-/

/-- Model of a JavaScript number: finite value, `Infinity`, `-Infinity` or `NaN`. -/
inductive JVal : Type
  | fin (q : ℚ)
  | inf
  | negInf
  | nan
deriving DecidableEq, Repr

namespace JVal

/-- JS division `a / b` on finite operands: IEEE semantics for a zero divisor
(`x/0 = Infinity` for `x > 0`, `-Infinity` for `x < 0`, `NaN` for `0/0`). -/
def jdiv (a b : ℚ) : JVal :=
  if b = 0 then
    if a = 0 then nan else if 0 < a then inf else negInf
  else fin (a / b)

/-- JS multiplication of a possibly non-finite value by a finite constant
(used for the `* 365` and `* 100` scalings in the source). -/
def jscale (v : JVal) (c : ℚ) : JVal :=
  match v with
  | fin q => fin (q * c)
  | inf => if 0 < c then inf else if c < 0 then negInf else nan
  | negInf => if 0 < c then negInf else if c < 0 then inf else nan
  | nan => nan

/-- JS addition on possibly non-finite values. -/
def jadd (a b : JVal) : JVal :=
  match a, b with
  | fin x, fin y => fin (x + y)
  | fin _, inf => inf
  | fin _, negInf => negInf
  | inf, fin _ => inf
  | negInf, fin _ => negInf
  | inf, inf => inf
  | negInf, negInf => negInf
  | inf, negInf => nan
  | negInf, inf => nan
  | nan, _ => nan
  | _, nan => nan

/-- JS subtraction on possibly non-finite values. -/
def jsub (a b : JVal) : JVal :=
  match a, b with
  | fin x, fin y => fin (x - y)
  | fin _, inf => negInf
  | fin _, negInf => inf
  | inf, fin _ => inf
  | negInf, fin _ => negInf
  | inf, inf => nan
  | negInf, negInf => nan
  | inf, negInf => inf
  | negInf, inf => negInf
  | nan, _ => nan
  | _, nan => nan

/-- JS comparison `v > c` for a finite right operand: any comparison with
`NaN` is false, `Infinity > c` is true, `-Infinity > c` is false. -/
def jgt (v : JVal) (c : ℚ) : Bool :=
  match v with
  | fin q => decide (c < q)
  | inf => true
  | negInf => false
  | nan => false

/-- JS comparison `v < c` for a finite right operand. -/
def jlt (v : JVal) (c : ℚ) : Bool :=
  match v with
  | fin q => decide (q < c)
  | inf => false
  | negInf => true
  | nan => false

/-- A value is finite (neither `Infinity`, `-Infinity` nor `NaN`). -/
def isFin : JVal → Bool
  | fin _ => true
  | _ => false

end JVal

/-!
`calculateAdvancedRatios` (src/unnamed/part_007, lines 434-486) and
`calculateAdvancedMetrics` (src/unnamed/part_002, lines 418-471) read their
input through `data.balanceSheet?.field` / `data.incomeStatement?.field`
with `|| 1` or `|| 0` defaults.  The input is therefore a record with two
optional sub-objects, each a bag of optional numeric fields (a missing JS
property reads as `undefined`).
-/

/-- The `balanceSheet` sub-object fields that `calculateAdvancedRatios` /
`calculateAdvancedMetrics` read (each may be absent, i.e. `undefined`). -/
structure BSObj where
  totalAssets : Option ℚ := none
  currentAssets : Option ℚ := none
  currentLiabilities : Option ℚ := none
  totalLiabilities : Option ℚ := none
  totalEquity : Option ℚ := none
  inventory : Option ℚ := none
  cashAndEquivalents : Option ℚ := none
  receivables : Option ℚ := none
  propertyPlantEquipment : Option ℚ := none
  tradePayables : Option ℚ := none
deriving DecidableEq, Repr

/-- The `incomeStatement` sub-object fields read by the metrics functions. -/
structure ISObj where
  revenue : Option ℚ := none
  netProfit : Option ℚ := none
  grossProfit : Option ℚ := none
  costOfGoodsSold : Option ℚ := none
deriving DecidableEq, Repr

/-- Input shape of `calculateAdvancedRatios`: an object whose `balanceSheet`
and `incomeStatement` members may each be absent (optional chaining in the
source: `data.balanceSheet || {}`). -/
structure NestedData where
  balanceSheet : Option BSObj := none
  incomeStatement : Option ISObj := none
deriving DecidableEq, Repr

/-- JS `x || 1` where `x` may be `undefined`: `undefined` and `0` are falsy. -/
def g1 : Option ℚ → ℚ
  | none => 1
  | some q => if q = 0 then 1 else q

/-- JS `x || 0` where `x` may be `undefined`. -/
def g0 : Option ℚ → ℚ
  | none => 0
  | some q => q

/-- Read a field of `data.balanceSheet` through the `|| {}` default. -/
def bsF (d : NestedData) (f : BSObj → Option ℚ) : Option ℚ :=
  match d.balanceSheet with
  | none => none
  | some b => f b

/-- Read a field of `data.incomeStatement` through the `|| {}` default. -/
def isF (d : NestedData) (f : ISObj → Option ℚ) : Option ℚ :=
  match d.incomeStatement with
  | none => none
  | some i => f i

/-- The MetricsSet returned by `calculateAdvancedRatios` /
`calculateAdvancedMetrics` (every entry a JS number). -/
structure MetricsSet where
  currentRatio : JVal
  quickRatio : JVal
  cashRatio : JVal
  debtToEquity : JVal
  debtToAssets : JVal
  equityRatio : JVal
  assetTurnover : JVal
  inventoryTurnover : JVal
  receivablesTurnover : JVal
  fixedAssetTurnover : JVal
  roa : JVal
  roe : JVal
  grossMargin : JVal
  netMargin : JVal
  workingCapital : JVal
  workingCapitalRatio : JVal
  cashConversionCycle : JVal
  daysSalesOutstanding : JVal
  daysInventoryOutstanding : JVal
  daysPayablesOutstanding : JVal
deriving DecidableEq, Repr

/-- `calculateCashConversionCycle` (part_007 lines 489-504; identical in
part_002 lines 473-488): here `revenue` and `costOfGoodsSold` are both
guarded with `|| 1`. -/
def calculateCashConversionCycle (data : NestedData) : JVal :=
  let receivables := g0 (bsF data (·.receivables))
  let inventory := g0 (bsF data (·.inventory))
  let payables := g0 (bsF data (·.tradePayables))
  let revenue := g1 (isF data (·.revenue))
  let costOfGoodsSold := g1 (isF data (·.costOfGoodsSold))
  let dso := JVal.jscale (JVal.jdiv receivables revenue) 365
  let dio := JVal.jscale (JVal.jdiv inventory costOfGoodsSold) 365
  let dpo := JVal.jscale (JVal.jdiv payables costOfGoodsSold) 365
  JVal.jsub (JVal.jadd dso dio) dpo

/-- `calculateDaysPayablesOutstanding` (part_007 lines 507-515). -/
def calculateDaysPayablesOutstanding (data : NestedData) : JVal :=
  let payables := g0 (bsF data (·.tradePayables))
  let costOfGoodsSold := g1 (isF data (·.costOfGoodsSold))
  JVal.jscale (JVal.jdiv payables costOfGoodsSold) 365

/-- `calculateAdvancedRatios` (src/unnamed/part_007, lines 434-486).
Note which denominators are guarded with `|| 1` (totalAssets,
currentLiabilities, totalEquity, costOfGoodsSold, propertyPlantEquipment)
and which inputs default to `|| 0` (currentAssets, totalLiabilities,
inventory, cashAndEquivalents, receivables, revenue, netProfit,
grossProfit). -/
def calculateAdvancedRatios (data : NestedData) : MetricsSet :=
  let totalAssets := g1 (bsF data (·.totalAssets))
  let currentAssets := g0 (bsF data (·.currentAssets))
  let currentLiabilities := g1 (bsF data (·.currentLiabilities))
  let totalLiabilities := g0 (bsF data (·.totalLiabilities))
  let totalEquity := g1 (bsF data (·.totalEquity))
  let inventory := g0 (bsF data (·.inventory))
  let cashAndEquivalents := g0 (bsF data (·.cashAndEquivalents))
  let receivables := g0 (bsF data (·.receivables))
  let revenue := g0 (isF data (·.revenue))
  let netProfit := g0 (isF data (·.netProfit))
  let grossProfit := g0 (isF data (·.grossProfit))
  let costOfGoodsSold := g1 (isF data (·.costOfGoodsSold))
  { currentRatio := JVal.jdiv currentAssets currentLiabilities
    quickRatio := JVal.jdiv (currentAssets - inventory) currentLiabilities
    cashRatio := JVal.jdiv cashAndEquivalents currentLiabilities
    debtToEquity := JVal.jdiv totalLiabilities totalEquity
    debtToAssets := JVal.jdiv totalLiabilities totalAssets
    equityRatio := JVal.jdiv totalEquity totalAssets
    assetTurnover := JVal.jdiv revenue totalAssets
    inventoryTurnover := JVal.jdiv costOfGoodsSold inventory
    receivablesTurnover := JVal.jdiv revenue receivables
    fixedAssetTurnover := JVal.jdiv revenue (g1 (bsF data (·.propertyPlantEquipment)))
    roa := JVal.jdiv netProfit totalAssets
    roe := JVal.jdiv netProfit totalEquity
    grossMargin := JVal.jdiv grossProfit revenue
    netMargin := JVal.jdiv netProfit revenue
    workingCapital := JVal.fin (currentAssets - currentLiabilities)
    workingCapitalRatio := JVal.jdiv (currentAssets - currentLiabilities) totalAssets
    cashConversionCycle := calculateCashConversionCycle data
    daysSalesOutstanding := JVal.jscale (JVal.jdiv receivables revenue) 365
    daysInventoryOutstanding := JVal.jscale (JVal.jdiv inventory costOfGoodsSold) 365
    daysPayablesOutstanding := calculateDaysPayablesOutstanding data }

/-- `calculateAdvancedMetrics` (src/unnamed/part_002, lines 418-471): the
same computation, with `daysPayablesOutstanding` inlined as
`(payables / costOfGoodsSold) * 365` instead of calling the helper. -/
def calculateAdvancedMetrics (data : NestedData) : MetricsSet :=
  let totalAssets := g1 (bsF data (·.totalAssets))
  let currentAssets := g0 (bsF data (·.currentAssets))
  let currentLiabilities := g1 (bsF data (·.currentLiabilities))
  let totalLiabilities := g0 (bsF data (·.totalLiabilities))
  let totalEquity := g1 (bsF data (·.totalEquity))
  let inventory := g0 (bsF data (·.inventory))
  let cashAndEquivalents := g0 (bsF data (·.cashAndEquivalents))
  let receivables := g0 (bsF data (·.receivables))
  let revenue := g0 (isF data (·.revenue))
  let netProfit := g0 (isF data (·.netProfit))
  let grossProfit := g0 (isF data (·.grossProfit))
  let costOfGoodsSold := g1 (isF data (·.costOfGoodsSold))
  let payables := g0 (bsF data (·.tradePayables))
  { currentRatio := JVal.jdiv currentAssets currentLiabilities
    quickRatio := JVal.jdiv (currentAssets - inventory) currentLiabilities
    cashRatio := JVal.jdiv cashAndEquivalents currentLiabilities
    debtToEquity := JVal.jdiv totalLiabilities totalEquity
    debtToAssets := JVal.jdiv totalLiabilities totalAssets
    equityRatio := JVal.jdiv totalEquity totalAssets
    assetTurnover := JVal.jdiv revenue totalAssets
    inventoryTurnover := JVal.jdiv costOfGoodsSold inventory
    receivablesTurnover := JVal.jdiv revenue receivables
    fixedAssetTurnover := JVal.jdiv revenue (g1 (bsF data (·.propertyPlantEquipment)))
    roa := JVal.jdiv netProfit totalAssets
    roe := JVal.jdiv netProfit totalEquity
    grossMargin := JVal.jdiv grossProfit revenue
    netMargin := JVal.jdiv netProfit revenue
    workingCapital := JVal.fin (currentAssets - currentLiabilities)
    workingCapitalRatio := JVal.jdiv (currentAssets - currentLiabilities) totalAssets
    cashConversionCycle := calculateCashConversionCycle data
    daysSalesOutstanding := JVal.jscale (JVal.jdiv receivables revenue) 365
    daysInventoryOutstanding := JVal.jscale (JVal.jdiv inventory costOfGoodsSold) 365
    daysPayablesOutstanding := JVal.jscale (JVal.jdiv payables (g1 (isF data (·.costOfGoodsSold)))) 365 }

/-!
Flat extracted data: `extractFinancialPatterns`
(src/server/utils/pdfProcessor.js, lines 57-100) returns an object with
exactly these 20 numeric top-level keys, and the Mongoose
`balanceSheetSchema.extractedData` (src/unnamed/part_000, lines 33-137)
stores numeric top-level keys of the same flat shape.  There is no
`balanceSheet` or `incomeStatement` member inside it.
-/

/-- The flat object produced by the PDF field extractor: one finite number
per known field (missing fields already defaulted to 0 by the extractor). -/
structure FlatData where
  totalAssets : ℚ := 0
  currentAssets : ℚ := 0
  nonCurrentAssets : ℚ := 0
  cashAndEquivalents : ℚ := 0
  investments : ℚ := 0
  receivables : ℚ := 0
  inventory : ℚ := 0
  propertyPlantEquipment : ℚ := 0
  intangibleAssets : ℚ := 0
  totalLiabilities : ℚ := 0
  currentLiabilities : ℚ := 0
  nonCurrentLiabilities : ℚ := 0
  shortTermBorrowings : ℚ := 0
  longTermBorrowings : ℚ := 0
  tradePayables : ℚ := 0
  provisions : ℚ := 0
  totalEquity : ℚ := 0
  shareCapital : ℚ := 0
  reservesAndSurplus : ℚ := 0
  retainedEarnings : ℚ := 0

/-- `Object.entries(data)` for a flat extracted-data object, in the key
order in which `extractFinancialPatterns` inserts the fields. -/
def FlatData.entries (d : FlatData) : List (String × ℚ) :=
  [("totalAssets", d.totalAssets), ("currentAssets", d.currentAssets),
   ("nonCurrentAssets", d.nonCurrentAssets),
   ("cashAndEquivalents", d.cashAndEquivalents),
   ("investments", d.investments), ("receivables", d.receivables),
   ("inventory", d.inventory),
   ("propertyPlantEquipment", d.propertyPlantEquipment),
   ("intangibleAssets", d.intangibleAssets),
   ("totalLiabilities", d.totalLiabilities),
   ("currentLiabilities", d.currentLiabilities),
   ("nonCurrentLiabilities", d.nonCurrentLiabilities),
   ("shortTermBorrowings", d.shortTermBorrowings),
   ("longTermBorrowings", d.longTermBorrowings),
   ("tradePayables", d.tradePayables), ("provisions", d.provisions),
   ("totalEquity", d.totalEquity), ("shareCapital", d.shareCapital),
   ("reservesAndSurplus", d.reservesAndSurplus),
   ("retainedEarnings", d.retainedEarnings)]

/-- A flat extracted-data object has no `balanceSheet` / `incomeStatement`
member, so the optional-chaining reads of `calculateAdvancedRatios` see
`undefined` for both sub-objects, whatever the extracted figures are. -/
def flatAsNested (_d : FlatData) : NestedData :=
  { balanceSheet := none, incomeStatement := none }

/-- One entry of the validator's `warnings` array.  The source pushes
template strings; the two templates are distinct, so a warning is modelled
by its template plus the interpolated values. -/
inductive Warning : Type
  | balance (difference : ℚ)
  | negative (field : String) (value : ℚ)

/-- `{isValid, errors, warnings}` returned by `validateFinancialData`. -/
structure ValidationResult where
  isValid : Bool
  errors : List String
  warnings : List Warning

/-- `validateFinancialData` (src/server/utils/pdfProcessor.js, lines
103-136): balance-equation warning with 5% tolerance, negative-value
warnings over `Object.entries`, and the sole fatal check
`!totalAssets && !totalLiabilities && !totalEquity` (for finite non-NaN
numbers, JS falsiness is equality with 0). -/
def validateFinancialData (data : FlatData) : ValidationResult :=
  let totalAssets := data.totalAssets
  let totalLiabilities := data.totalLiabilities
  let totalEquity := data.totalEquity
  let balance := |totalLiabilities + totalEquity - totalAssets|
  let balanceThreshold := totalAssets * (5 / 100)
  let balWarnings :=
    if balanceThreshold < balance then [Warning.balance balance] else []
  let negWarnings :=
    (data.entries.filter fun kv => kv.2 < 0).map fun kv =>
      Warning.negative kv.1 kv.2
  let critical := totalAssets = 0 ∧ totalLiabilities = 0 ∧ totalEquity = 0
  { isValid := !decide critical
    errors := if critical then ["No critical financial data found in PDF"] else []
    warnings := balWarnings ++ negWarnings }

/-- The validator's warnings list contains a balance-equation warning. -/
def hasBalanceWarning (v : ValidationResult) : Bool :=
  v.warnings.any fun w => match w with | .balance _ => true | _ => false

/-- Upload-time gate on AI analysis (balanceSheetController.js line 70):
`analyzeFinancialData` is invoked iff `pdfData.validation.isValid`. -/
def uploadRunsAnalysis (v : ValidationResult) : Bool :=
  v.isValid

/-!
The stored record's `extractedData` (Mongoose schema, part_000) and the
save-time mutating metrics method `calculateMetrics` (part_000, lines
231-248).
-/

/-- The numeric fields of `balanceSheetSchema.extractedData`, including the
four derived metric fields the schema stores alongside the raw figures. -/
structure ExtractedData where
  totalAssets : ℚ := 0
  currentAssets : ℚ := 0
  nonCurrentAssets : ℚ := 0
  cashAndCashEquivalents : ℚ := 0
  investments : ℚ := 0
  receivables : ℚ := 0
  inventory : ℚ := 0
  propertyPlantEquipment : ℚ := 0
  intangibleAssets : ℚ := 0
  totalLiabilities : ℚ := 0
  currentLiabilities : ℚ := 0
  nonCurrentLiabilities : ℚ := 0
  shortTermBorrowings : ℚ := 0
  longTermBorrowings : ℚ := 0
  tradePayables : ℚ := 0
  provisions : ℚ := 0
  totalEquity : ℚ := 0
  shareCapital : ℚ := 0
  reservesAndSurplus : ℚ := 0
  retainedEarnings : ℚ := 0
  workingCapital : ℚ := 0
  debtToEquityRatio : ℚ := 0
  currentRatio : ℚ := 0
  quickRatio : ℚ := 0

/-- `balanceSheetSchema.methods.calculateMetrics` (part_000, lines 231-248):
mutates the stored record in place, writing `workingCapital`
unconditionally, `debtToEquityRatio` when `totalEquity > 0`, and
`currentRatio`/`quickRatio` when `currentLiabilities > 0`.  All reads are
from fields it never writes. -/
def calculateMetrics (e : ExtractedData) : ExtractedData :=
  let e1 := { e with workingCapital := e.currentAssets - e.currentLiabilities }
  let e2 :=
    if 0 < e.totalEquity then
      { e1 with debtToEquityRatio := e.totalLiabilities / e.totalEquity }
    else e1
  if 0 < e.currentLiabilities then
    { e2 with currentRatio := e.currentAssets / e.currentLiabilities
              quickRatio := (e.currentAssets - e.inventory) / e.currentLiabilities }
  else e2

/-!
Risk classification (src/unnamed/part_002, `router.get('/risk/:companyId')`,
lines 229-251).
-/

/-- Discrete risk level. -/
inductive Risk : Type
  | low
  | medium
  | high
deriving DecidableEq, Repr

/-- Liquidity risk from the current ratio (part_002 lines 230-232). -/
def liquidityRiskOf (currentRatio : ℚ) : Risk :=
  if currentRatio < 1 then .high
  else if currentRatio < 3 / 2 then .medium
  else .low

/-- Solvency risk from debt-to-equity (part_002 lines 234-236). -/
def solvencyRiskOf (debtToEquity : ℚ) : Risk :=
  if 1 < debtToEquity then .high
  else if 1 / 2 < debtToEquity then .medium
  else .low

/-- Asset/operational risk from debt-to-assets (part_002 lines 238-240). -/
def assetRiskOf (debtToAssets : ℚ) : Risk :=
  if 3 / 5 < debtToAssets then .high
  else if 2 / 5 < debtToAssets then .medium
  else .low

/-- Overall risk (part_002 lines 250-251): High when more than one
dimension is High, else Medium when more than one is Medium, else Low. -/
def overallRiskOf (l s a : Risk) : Risk :=
  if 1 < ([l, s, a].filter (· = Risk.high)).length then .high
  else if 1 < ([l, s, a].filter (· = Risk.medium)).length then .medium
  else .low

/-- The stricter solvency thresholds used by the other risk endpoint
(src/unnamed/part_010, lines 283-287): High above 2, Medium above 1. -/
def solvencyRiskStrictOf (debtToEquity : ℚ) : Risk :=
  if 2 < debtToEquity then .high
  else if 1 < debtToEquity then .medium
  else .low

/-!
Trend / growth computations.
-/

/-- One element of the array passed to `calculateTrendAnalysis`
(part_007): `{year, data}` with nested extracted data. -/
structure PeriodNested where
  year : ℤ
  data : NestedData

/-- One entry of the `trends` object built by `calculateTrendAnalysis`
(part_007 lines 650-655), keyed `"{previous.year}-{current.year}"`. -/
structure TrendEntry where
  revenueGrowth : JVal
  assetGrowth : JVal
  equityGrowth : JVal
  year : ℤ
deriving DecidableEq, Repr

/-- The body of the adjacent-pair loop of `calculateTrendAnalysis`
(src/unnamed/part_007, lines 636-656): raw
`((current - previous) / previous) * 100` with no zero-previous guard. -/
def trendPair (previous current : PeriodNested) : TrendEntry :=
  let currentRevenue := g0 (isF current.data (·.revenue))
  let previousRevenue := g0 (isF previous.data (·.revenue))
  let currentAssets := g0 (bsF current.data (·.totalAssets))
  let previousAssets := g0 (bsF previous.data (·.totalAssets))
  let currentEquity := g0 (bsF current.data (·.totalEquity))
  let previousEquity := g0 (bsF previous.data (·.totalEquity))
  { revenueGrowth := JVal.jscale (JVal.jdiv (currentRevenue - previousRevenue) previousRevenue) 100
    assetGrowth := JVal.jscale (JVal.jdiv (currentAssets - previousAssets) previousAssets) 100
    equityGrowth := JVal.jscale (JVal.jdiv (currentEquity - previousEquity) previousEquity) 100
    year := current.year }

/-- `calculateTrendAnalysis` (part_007, lines 630-659) on a list already in
chronological (ascending year) order, as produced by its `sort`: one trend
entry per adjacent pair, empty when fewer than 2 periods. -/
def calculateTrendAnalysis (balanceSheets : List PeriodNested) : List TrendEntry :=
  if balanceSheets.length < 2 then []
  else (balanceSheets.zip balanceSheets.tail).map fun pc => trendPair pc.1 pc.2

/-- The per-pair growth metrics of the growth route
(src/unnamed/part_010, lines 181-185): the route reads the stored flat
`extractedData` fields directly, again with no zero-previous guard. -/
structure GrowthMetrics where
  assetGrowth : JVal
  liabilityGrowth : JVal
  equityGrowth : JVal
  currentAssetGrowth : JVal
  currentLiabilityGrowth : JVal
deriving DecidableEq, Repr

/-- Adjacent-pair growth of the part_010 growth route (`current` is the
newer period, `previous` the older one). -/
def growthMetricsPair (current previous : ExtractedData) : GrowthMetrics :=
  { assetGrowth := JVal.jscale (JVal.jdiv (current.totalAssets - previous.totalAssets) previous.totalAssets) 100
    liabilityGrowth := JVal.jscale (JVal.jdiv (current.totalLiabilities - previous.totalLiabilities) previous.totalLiabilities) 100
    equityGrowth := JVal.jscale (JVal.jdiv (current.totalEquity - previous.totalEquity) previous.totalEquity) 100
    currentAssetGrowth := JVal.jscale (JVal.jdiv (current.currentAssets - previous.currentAssets) previous.currentAssets) 100
    currentLiabilityGrowth := JVal.jscale (JVal.jdiv (current.currentLiabilities - previous.currentLiabilities) previous.currentLiabilities) 100 }

/-- The assets CAGR computed by the part_010 growth route (lines 198-206):
`Math.pow(lastYear.totalAssets / firstYear.totalAssets, 1 / yearsDiff) - 1`
where `firstYear` is the oldest period, `lastYear` the newest and
`yearsDiff = periodCount - 1`.  `Math.pow` on a positive base is real
exponentiation, so the value is characterised as a real number. -/
def routeCagrAssets (firstAssets lastAssets : ℚ) (yearsDiff : ℕ) (y : ℝ) : Prop :=
  y = ((lastAssets : ℝ) / (firstAssets : ℝ)) ^ ((1 : ℝ) / (yearsDiff : ℝ)) - 1

/-!
`analyzeFinancialData` and its deterministic fallback
(src/unnamed/part_007, lines 351-431), with the AI collaborator call
abstracted as an `Except`-valued input: `.ok text` is a successful
`model.generateContent` response, `.error e` is a thrown error with its
`status` and `message`.
-/

/-- A thrown AI-collaborator error: HTTP-ish status plus message. -/
structure AIError where
  status : ℕ
  message : String

/-- One row of the mock industry benchmark (part_007 lines 529-560). -/
structure BenchmarkEntry where
  company : JVal
  industry : ℚ
  status : String
deriving DecidableEq, Repr

/-- The benchmark object returned by `generateIndustryBenchmark`. -/
structure IndustryBenchmark where
  currentRatio : BenchmarkEntry
  debtToEquity : BenchmarkEntry
  roa : BenchmarkEntry
  roe : BenchmarkEntry
  assetTurnover : BenchmarkEntry
  netMargin : BenchmarkEntry
deriving DecidableEq, Repr

/-- `generateIndustryBenchmark` (part_007, lines 518-561): compares six
ratios against fixed mock industry averages (JS `>` / `<`, which are false
on NaN). -/
def generateIndustryBenchmark (ratios : MetricsSet) : IndustryBenchmark :=
  { currentRatio :=
      { company := ratios.currentRatio, industry := 9 / 5
        status := if JVal.jgt ratios.currentRatio (9 / 5) then "Good" else "Below Average" }
    debtToEquity :=
      { company := ratios.debtToEquity, industry := 3 / 5
        status := if JVal.jlt ratios.debtToEquity (3 / 5) then "Good" else "Above Average" }
    roa :=
      { company := ratios.roa, industry := 2 / 25
        status := if JVal.jgt ratios.roa (2 / 25) then "Good" else "Below Average" }
    roe :=
      { company := ratios.roe, industry := 3 / 25
        status := if JVal.jgt ratios.roe (3 / 25) then "Good" else "Below Average" }
    assetTurnover :=
      { company := ratios.assetTurnover, industry := 6 / 5
        status := if JVal.jgt ratios.assetTurnover (6 / 5) then "Good" else "Below Average" }
    netMargin :=
      { company := ratios.netMargin, industry := 1 / 10
        status := if JVal.jgt ratios.netMargin (1 / 10) then "Good" else "Below Average" } }

/-- Abstraction of JS `Number.prototype.toFixed(2)`: two-decimal rendering
of a finite value (rounding to hundredths), and the JS spellings of the
non-finite values.  The claims never inspect the digits, only that a string
is produced without an exception. -/
def toFixed2 : JVal → String
  | .fin q =>
      let n : ℤ := round (q * 100)
      let m := n.natAbs
      (if n < 0 then "-" else "") ++ toString (m / 100) ++ "." ++
        toString (m % 100 / 10) ++ toString (m % 10)
  | .inf => "Infinity"
  | .negInf => "-Infinity"
  | .nan => "NaN"

/-- The result contract of `analyzeFinancialData` and of
`generateFallbackFinancialAnalysis`. -/
structure AnalysisResult where
  analysis : String
  keyInsights : List String
  riskFactors : List String
  recommendations : List String
  advancedMetrics : MetricsSet
  industryBenchmark : IndustryBenchmark

/-- Case-insensitive prefix test of a lowercase needle against a char
list. -/
def startsWithCI : List Char → List Char → Bool
  | [], _ => true
  | _ :: _, [] => false
  | n :: ns, c :: cs => n = c.toLower && startsWithCI ns cs

/-- JS `String.prototype.split` with a case-insensitive literal pattern
(e.g. `analysis.split(/risk/i)`): split at each non-overlapping
occurrence, scanning left to right.  `needle` is given lowercase and
nonempty. -/
def splitCIAux (needle : List Char) : List Char → List Char → List (List Char)
  | [], acc => [acc.reverse]
  | c :: cs, acc =>
    if startsWithCI needle (c :: cs) then
      acc.reverse :: splitCIAux needle (List.drop (needle.length - 1) cs) []
    else
      splitCIAux needle cs (c :: acc)
termination_by l _ => l.length
decreasing_by
  · simp [List.length_drop]
    omega
  · simp

/-- String wrapper for `splitCIAux`. -/
def splitCI (needle s : String) : List String :=
  (splitCIAux needle.data s.data []).map List.asString

/-- Case-insensitive substring test (JS
`message.includes(...)` applied after the source lowercases, and the
`toLowerCase().includes(...)` gates). -/
def containsStr (s needle : String) : Bool :=
  let rec go : List Char → Bool
    | [] => needle.data.isEmpty
    | c :: cs => startsWithCI needle.data (c :: cs) || go cs
  go s.data

/-- JS `line.replace(/^[•\-*]\s*/, '')`: strip one leading bullet character
and the whitespace after it, if the line starts with a bullet. -/
def stripBullet (line : String) : String :=
  match line.data with
  | c :: rest =>
      if c = '•' || c = '-' || c = '*' then
        (rest.dropWhile Char.isWhitespace).asString
      else line
  | [] => line

/-- A line the extract helpers treat as a bullet item. -/
def isBulletish (line : String) : Bool :=
  line.contains '•' || line.contains '-' || line.contains '*'

/-- `extractKeyInsights` (part_007, lines 775-787): bullet lines of the AI
text, stripped and trimmed, first five. -/
def extractKeyInsights (analysis : String) : List String :=
  let insights := (analysis.splitOn "\n").filterMap fun line =>
    if isBulletish line then
      let insight := (stripBullet line).trim
      if insight ≠ "" then some insight else none
    else none
  insights.take 5

/-- `extractRiskFactors` (part_007, lines 789-802): bullet lines of the
text between the first and second case-insensitive "risk", first three. -/
def extractRiskFactors (analysis : String) : List String :=
  let sectionLines :=
    if containsStr analysis "risk" then
      match (splitCI "risk" analysis).get? 1 with
      | some s => s.splitOn "\n"
      | none => []
    else []
  let risks := sectionLines.filterMap fun line =>
    if isBulletish line then
      let risk := (stripBullet line).trim
      if risk ≠ "" then some risk else none
    else none
  risks.take 3

/-- `extractRecommendations` (part_007, lines 804-817): same shape as
`extractRiskFactors` with the "recommend" marker. -/
def extractRecommendations (analysis : String) : List String :=
  let sectionLines :=
    if containsStr analysis "recommend" then
      match (splitCI "recommend" analysis).get? 1 with
      | some s => s.splitOn "\n"
      | none => []
    else []
  let recs := sectionLines.filterMap fun line =>
    if isBulletish line then
      let rec' := (stripBullet line).trim
      if rec' ≠ "" then some rec' else none
    else none
  recs.take 3

/-- `generateFallbackFinancialAnalysis` (src/unnamed/part_007, lines
403-431): deterministic result built from `calculateAdvancedRatios`, with
the current and debt-to-equity ratios interpolated into the narrative. -/
def generateFallbackFinancialAnalysis (balanceSheetData : NestedData) : AnalysisResult :=
  let ratios := calculateAdvancedRatios balanceSheetData
  { analysis :=
      "Based on the financial data provided, this company shows a healthy financial position with strong liquidity and solvency ratios. The current ratio of "
        ++ toFixed2 ratios.currentRatio
        ++ " indicates good short-term financial health, while the debt-to-equity ratio of "
        ++ toFixed2 ratios.debtToEquity
        ++ " shows balanced capital structure."
    keyInsights :=
      ["Strong liquidity position with adequate working capital",
       "Healthy debt-to-equity ratio indicating good solvency",
       "Positive net profit margin showing operational efficiency",
       "Good asset utilization with strong ROA",
       "Favorable cash conversion cycle"]
    riskFactors :=
      ["Market volatility could impact asset values",
       "Interest rate changes may affect debt servicing costs",
       "Industry competition may pressure profit margins",
       "Economic downturns could affect receivables collection"]
    recommendations :=
      ["Maintain current liquidity ratios",
       "Consider diversifying investment portfolio",
       "Monitor market conditions for risk management",
       "Optimize working capital management",
       "Explore debt refinancing opportunities"]
    advancedMetrics := ratios
    industryBenchmark := generateIndustryBenchmark ratios }

/-- `analyzeFinancialData` (src/unnamed/part_007, lines 351-400).  `apiKey`
models `process.env.GEMINI_API_KEY` (absent or a string); `ai` models the
awaited AI collaborator call, which either returns the analysis text or
throws.  The `try`/`catch` of the source is the `match` on `ai`: a thrown
error is caught, and both the rate-limit branch and the generic branch
return the fallback, so no error is ever propagated. -/
def analyzeFinancialData (apiKey : Option String) (ai : Except AIError String)
    (balanceSheetData : NestedData) : Except AIError AnalysisResult :=
  if apiKey = none ∨ apiKey = some "" then
    .ok (generateFallbackFinancialAnalysis balanceSheetData)
  else
    match ai with
    | .error error =>
        if error.status = 429 || containsStr error.message "quota"
            || containsStr error.message "rate limit" then
          .ok (generateFallbackFinancialAnalysis balanceSheetData)
        else
          .ok (generateFallbackFinancialAnalysis balanceSheetData)
    | .ok analysis =>
        let ratios := calculateAdvancedRatios balanceSheetData
        .ok { analysis := analysis
              keyInsights := extractKeyInsights analysis
              riskFactors := extractRiskFactors analysis
              recommendations := extractRecommendations analysis
              advancedMetrics := ratios
              industryBenchmark := generateIndustryBenchmark ratios }

/-!
The field extractor `extractFinancialPatterns`
(src/server/utils/pdfProcessor.js, lines 57-100).  Each pattern is
`(?:LABEL|...)\s*[:\-]?\s*₹?\s*([\d,]+\.?\d*)` with the `/i` flag: a small
regex language with case-insensitive literals, optional atoms (`?`),
character-class star/plus, and alternation suffices.  `matchesPre`
enumerates the possible remainders after matching a regex at the start of
the input in exactly the JS backtracking priority order (alternatives left
to right, `?` and `*`/`+` greedy), so taking the first remainder on which
the trailing capture group succeeds reproduces `String.prototype.match`.
-/

/-- Regex fragments used by the extraction patterns. -/
inductive RE : Type
  | eps
  | cls (p : Char → Bool)
  | seq (a b : RE)
  | alt (a b : RE)
  | opt (a : RE)
  | starCls (p : Char → Bool)

/-- Remainders after greedily matching a character class zero or more
times, longest match first (JS greedy `*`). -/
def starRests (p : Char → Bool) (s : List Char) : List (List Char) :=
  let k := (s.takeWhile p).length
  (List.range (k + 1)).map fun i => s.drop (k - i)

/-- All remainders after matching `re` at the start of `s`, in JS
backtracking priority order. -/
def matchesPre : RE → List Char → List (List Char)
  | .eps, s => [s]
  | .cls _, [] => []
  | .cls p, c :: cs => if p c then [cs] else []
  | .seq a b, s => (matchesPre a s).flatMap fun r => matchesPre b r
  | .alt a b, s => matchesPre a s ++ matchesPre b s
  | .opt a, s => matchesPre a s ++ [s]
  | .starCls p, s => starRests p s

/-- A digit or a thousands-separator comma (the class `[\d,]`). -/
def isDigitComma (c : Char) : Bool :=
  c.isDigit || c = ','

/-- The trailing capture group `([\d,]+\.?\d*)`: greedy, with nothing
after it, so it has a unique (deterministic) result. -/
def captureNum (s : List Char) : Option (List Char) :=
  let r1 := s.takeWhile isDigitComma
  if r1.isEmpty then none
  else
    match s.drop r1.length with
    | '.' :: s2 => some (r1 ++ '.' :: s2.takeWhile Char.isDigit)
    | _ => some r1

/-- Match `pre` followed by the numeric capture group at the start of `s`,
returning the captured characters of the first (JS-priority) overall
success. -/
def matchCaptureAt (pre : RE) (s : List Char) : Option (List Char) :=
  (matchesPre pre s).findSome? captureNum

/-- `text.match(pattern)`: scan positions left to right and return the
capture of the first position where the whole pattern matches. -/
def firstMatch (pre : RE) : List Char → Option (List Char)
  | [] => matchCaptureAt pre []
  | c :: cs =>
    match matchCaptureAt pre (c :: cs) with
    | some cap => some cap
    | none => firstMatch pre cs

/-- `match[1].replace(/,/g, '')`. -/
def stripCommas (s : List Char) : List Char :=
  s.filter fun c => c ≠ ','

/-- `parseFloat` on the comma-stripped capture (which contains only
digits and at most one dot): `none` models `NaN`. -/
def parseFloatNum (s : List Char) : Option ℚ :=
  let d1 := s.takeWhile Char.isDigit
  let rest := s.drop d1.length
  let d2 :=
    match rest with
    | '.' :: r => r.takeWhile Char.isDigit
    | _ => []
  if d1.isEmpty && d2.isEmpty then none
  else
    let intPart : ℚ := d1.foldl (fun a c => a * 10 + (c.toNat - '0'.toNat : ℕ)) 0
    let fracPart : ℚ :=
      (d2.foldl (fun a c => a * 10 + (c.toNat - '0'.toNat : ℕ)) 0) / 10 ^ d2.length
    some (intPart + fracPart)

/-- `const value = parseFloat(match[1].replace(/,/g, '')); value || 0`. -/
def parseNumOr0 (cap : List Char) : ℚ :=
  match parseFloatNum (stripCommas cap) with
  | none => 0
  | some q => q

/-- Per-field extraction: value of the first match, else the 0 default
(lines 88-97 of pdfProcessor.js). -/
def extractField (pre : RE) (text : List Char) : ℚ :=
  match firstMatch pre text with
  | none => 0
  | some cap => parseNumOr0 cap

/-- Case-insensitive single character. -/
def chCI (c : Char) : RE :=
  .cls fun x => x.toLower == c.toLower

/-- Case-insensitive literal string. -/
def strCI (s : String) : RE :=
  s.data.foldr (fun c r => .seq (chCI c) r) .eps

/-- A literal phrase whose final character carries the regex `?` (e.g.
`Total Assets?` is `phraseOpt "Total Asset" 's'`). -/
def phraseOpt (s : String) (last : Char) : RE :=
  .seq (strCI s) (.opt (chCI last))

/-- The common pattern tail `\s*[:\-]?\s*₹?\s*` before the capture. -/
def sepRE : RE :=
  .seq (.starCls Char.isWhitespace)
    (.seq (.opt (.cls fun c => c = ':' || c = '-'))
      (.seq (.starCls Char.isWhitespace)
        (.seq (.opt (chCI '₹')) (.starCls Char.isWhitespace))))

/-- Build a whole field pattern from its label alternatives. -/
def fieldPat (labels : List RE) : RE :=
  .seq (labels.foldr RE.alt (.cls fun _ => false)) sepRE

/-- The pattern table of `extractFinancialPatterns` (pdfProcessor.js,
lines 58-84), one pattern per stored field, alternatives in source
order. -/
def patTotalAssets : RE :=
  fieldPat [phraseOpt "Total Asset" 's', phraseOpt "Total Assets and Liabilitie" 's']

def patCurrentAssets : RE :=
  fieldPat [phraseOpt "Current Asset" 's', phraseOpt "Current Assets and Liabilitie" 's']

def patNonCurrentAssets : RE :=
  fieldPat [phraseOpt "Non-Current Asset" 's', phraseOpt "Fixed Asset" 's']

def patCashAndEquivalents : RE :=
  fieldPat [phraseOpt "Cash and Cash Equivalent" 's', phraseOpt "Cash and Bank Balance" 's']

def patInvestments : RE :=
  fieldPat [phraseOpt "Investment" 's', phraseOpt "Financial Asset" 's']

def patReceivables : RE :=
  fieldPat [phraseOpt "Trade Receivable" 's', phraseOpt "Accounts Receivabl" 'e',
    phraseOpt "Sundry Debtor" 's']

def patInventory : RE :=
  fieldPat [phraseOpt "Inventorie" 's', phraseOpt "Stock in Trad" 'e']

def patPropertyPlantEquipment : RE :=
  fieldPat [phraseOpt "Property, Plant and Equipmen" 't', phraseOpt "Fixed Asset" 's',
    phraseOpt "Tangible Asset" 's']

def patIntangibleAssets : RE :=
  fieldPat [phraseOpt "Intangible Asset" 's', phraseOpt "Goodwil" 'l']

def patTotalLiabilities : RE :=
  fieldPat [phraseOpt "Total Liabilitie" 's', phraseOpt "Total Equity and Liabilitie" 's']

def patCurrentLiabilities : RE :=
  fieldPat [phraseOpt "Current Liabilitie" 's', phraseOpt "Current Provision" 's']

def patNonCurrentLiabilities : RE :=
  fieldPat [phraseOpt "Non-Current Liabilitie" 's', phraseOpt "Long-term Liabilitie" 's']

def patShortTermBorrowings : RE :=
  fieldPat [phraseOpt "Short-term Borrowing" 's', phraseOpt "Short-term Loan" 's']

def patLongTermBorrowings : RE :=
  fieldPat [phraseOpt "Long-term Borrowing" 's', phraseOpt "Long-term Loan" 's']

def patTradePayables : RE :=
  fieldPat [phraseOpt "Trade Payable" 's', phraseOpt "Accounts Payabl" 'e',
    phraseOpt "Sundry Creditor" 's']

def patProvisions : RE :=
  fieldPat [phraseOpt "Provision" 's', phraseOpt "Other Liabilitie" 's']

def patTotalEquity : RE :=
  fieldPat [phraseOpt "Total Equit" 'y', phraseOpt "Shareholders\x27 Equit" 'y',
    phraseOpt "Net Wort" 'h']

def patShareCapital : RE :=
  fieldPat [phraseOpt "Share Capita" 'l', phraseOpt "Paid-up Capita" 'l']

def patReservesAndSurplus : RE :=
  fieldPat [phraseOpt "Reserves and Surplu" 's', phraseOpt "Retained Earning" 's']

def patRetainedEarnings : RE :=
  fieldPat [phraseOpt "Retained Earning" 's', phraseOpt "Accumulated Profit" 's']

/-- `extractFinancialPatterns` (pdfProcessor.js, lines 57-100): apply every
field pattern to the text, first match per field, comma-stripped and
parsed, defaulting to 0. -/
def extractFinancialPatterns (text : List Char) : FlatData :=
  { totalAssets := extractField patTotalAssets text
    currentAssets := extractField patCurrentAssets text
    nonCurrentAssets := extractField patNonCurrentAssets text
    cashAndEquivalents := extractField patCashAndEquivalents text
    investments := extractField patInvestments text
    receivables := extractField patReceivables text
    inventory := extractField patInventory text
    propertyPlantEquipment := extractField patPropertyPlantEquipment text
    intangibleAssets := extractField patIntangibleAssets text
    totalLiabilities := extractField patTotalLiabilities text
    currentLiabilities := extractField patCurrentLiabilities text
    nonCurrentLiabilities := extractField patNonCurrentLiabilities text
    shortTermBorrowings := extractField patShortTermBorrowings text
    longTermBorrowings := extractField patLongTermBorrowings text
    tradePayables := extractField patTradePayables text
    provisions := extractField patProvisions text
    totalEquity := extractField patTotalEquity text
    shareCapital := extractField patShareCapital text
    reservesAndSurplus := extractField patReservesAndSurplus text
    retainedEarnings := extractField patRetainedEarnings text }

/-- A JS-falsy numeric property: absent (`undefined`) or `0`. -/
def zeroOrMissing (o : Option ℚ) : Prop :=
  o = none ∨ o = some 0

/-- The sample normalized text of the extraction-determinism scenario. -/
def sampleText : String := "Total Assets: ₹1,234,500"

/-!
Helper lemmas about the JS-number model and the guards.
-/

/-- The two metric functions (AI-utility module and analysis router) compute
the same MetricsSet. -/
theorem calculateAdvancedMetrics_eq (d : NestedData) :
    calculateAdvancedMetrics d = calculateAdvancedRatios d := by
  rfl

theorem g1_ne_zero (o : Option ℚ) : g1 o ≠ 0 := by
  cases o with
  | none => simp [g1]
  | some q =>
    by_cases h : q = 0 <;> simp [g1, h]

theorem g1_of_zeroOrMissing {o : Option ℚ} (h : zeroOrMissing o) : g1 o = 1 := by
  rcases h with h | h <;> simp [h, g1]

theorem jdiv_of_ne {a b : ℚ} (h : b ≠ 0) : JVal.jdiv a b = .fin (a / b) := by
  simp [JVal.jdiv, h]

theorem jdiv_one (a : ℚ) : JVal.jdiv a 1 = .fin a := by
  simp [JVal.jdiv]

theorem isFin_jdiv {a b : ℚ} (h : b ≠ 0) : (JVal.jdiv a b).isFin = true := by
  simp [JVal.jdiv, h, JVal.isFin]

/-- C1 counterexample: with `inventory = 0` and `costOfGoodsSold = 5`, the
computed `inventoryTurnover` is `Infinity`, not the numerator value: the
code guards only some denominators with `|| 1`, and `inventory` is read
with `|| 0`. -/
theorem C1_guard_counterexample :
    (calculateAdvancedRatios
        { balanceSheet := some { inventory := some 0 }
          incomeStatement := some { costOfGoodsSold := some 5 } }).inventoryTurnover
      = JVal.inf ∧
    (calculateAdvancedRatios
        { balanceSheet := some { inventory := some 0 }
          incomeStatement := some { costOfGoodsSold := some 5 } }).inventoryTurnover
      ≠ JVal.fin 5 := by
  constructor <;>
    simp [calculateAdvancedRatios, JVal.jdiv, g0, g1, bsF, isF]

/-- C1 amended: the `|| 1` guard applies only to the denominators
currentLiabilities, totalEquity, totalAssets, propertyPlantEquipment and
costOfGoodsSold; whenever one of those is 0 (or absent) the corresponding
ratios equal the numerator value used by the code, and every entry whose
denominator is guarded is always finite (never Infinity or NaN).  The
denominators inventory, receivables and revenue are NOT guarded: when one
of them is 0 the corresponding entries are Infinity, -Infinity or NaN. -/
theorem C1_guard_amended (d : NestedData) :
    (zeroOrMissing (bsF d (·.currentLiabilities)) →
      (calculateAdvancedRatios d).currentRatio = .fin (g0 (bsF d (·.currentAssets))) ∧
      (calculateAdvancedRatios d).quickRatio
        = .fin (g0 (bsF d (·.currentAssets)) - g0 (bsF d (·.inventory))) ∧
      (calculateAdvancedRatios d).cashRatio = .fin (g0 (bsF d (·.cashAndEquivalents)))) ∧
    (zeroOrMissing (bsF d (·.totalEquity)) →
      (calculateAdvancedRatios d).debtToEquity = .fin (g0 (bsF d (·.totalLiabilities))) ∧
      (calculateAdvancedRatios d).roe = .fin (g0 (isF d (·.netProfit)))) ∧
    (zeroOrMissing (bsF d (·.totalAssets)) →
      (calculateAdvancedRatios d).debtToAssets = .fin (g0 (bsF d (·.totalLiabilities))) ∧
      (calculateAdvancedRatios d).equityRatio = .fin (g1 (bsF d (·.totalEquity))) ∧
      (calculateAdvancedRatios d).assetTurnover = .fin (g0 (isF d (·.revenue))) ∧
      (calculateAdvancedRatios d).roa = .fin (g0 (isF d (·.netProfit))) ∧
      (calculateAdvancedRatios d).workingCapitalRatio
        = .fin (g0 (bsF d (·.currentAssets)) - g1 (bsF d (·.currentLiabilities)))) ∧
    (zeroOrMissing (bsF d (·.propertyPlantEquipment)) →
      (calculateAdvancedRatios d).fixedAssetTurnover = .fin (g0 (isF d (·.revenue)))) ∧
    (zeroOrMissing (isF d (·.costOfGoodsSold)) →
      (calculateAdvancedRatios d).daysInventoryOutstanding
        = .fin (g0 (bsF d (·.inventory)) * 365) ∧
      (calculateAdvancedRatios d).daysPayablesOutstanding
        = .fin (g0 (bsF d (·.tradePayables)) * 365)) ∧
    ((calculateAdvancedRatios d).currentRatio.isFin = true ∧
      (calculateAdvancedRatios d).quickRatio.isFin = true ∧
      (calculateAdvancedRatios d).cashRatio.isFin = true ∧
      (calculateAdvancedRatios d).debtToEquity.isFin = true ∧
      (calculateAdvancedRatios d).debtToAssets.isFin = true ∧
      (calculateAdvancedRatios d).equityRatio.isFin = true ∧
      (calculateAdvancedRatios d).assetTurnover.isFin = true ∧
      (calculateAdvancedRatios d).fixedAssetTurnover.isFin = true ∧
      (calculateAdvancedRatios d).roa.isFin = true ∧
      (calculateAdvancedRatios d).roe.isFin = true ∧
      (calculateAdvancedRatios d).workingCapital.isFin = true ∧
      (calculateAdvancedRatios d).workingCapitalRatio.isFin = true ∧
      (calculateAdvancedRatios d).cashConversionCycle.isFin = true ∧
      (calculateAdvancedRatios d).daysInventoryOutstanding.isFin = true ∧
      (calculateAdvancedRatios d).daysPayablesOutstanding.isFin = true) ∧
    (g0 (bsF d (·.inventory)) = 0 →
      (calculateAdvancedRatios d).inventoryTurnover.isFin = false) ∧
    (g0 (bsF d (·.receivables)) = 0 →
      (calculateAdvancedRatios d).receivablesTurnover.isFin = false) ∧
    (g0 (isF d (·.revenue)) = 0 →
      (calculateAdvancedRatios d).grossMargin.isFin = false ∧
      (calculateAdvancedRatios d).netMargin.isFin = false ∧
      (calculateAdvancedRatios d).daysSalesOutstanding.isFin = false) := by
  refine ⟨?_, ?_, ?_, ?_, ?_, ?_, ?_, ?_, ?_⟩
  · intro h
    simp [calculateAdvancedRatios, g1_of_zeroOrMissing h, jdiv_one]
  · intro h
    simp [calculateAdvancedRatios, g1_of_zeroOrMissing h, jdiv_one]
  · intro h
    simp [calculateAdvancedRatios, g1_of_zeroOrMissing h, jdiv_one]
  · intro h
    simp [calculateAdvancedRatios, g1_of_zeroOrMissing h, jdiv_one]
  · intro h
    simp [calculateAdvancedRatios, calculateDaysPayablesOutstanding,
      g1_of_zeroOrMissing h, jdiv_one, JVal.jscale]
  · simp [calculateAdvancedRatios, calculateCashConversionCycle,
      calculateDaysPayablesOutstanding, jdiv_of_ne, g1_ne_zero,
      JVal.jscale, JVal.jadd, JVal.jsub, JVal.isFin]
  · intro h
    by_cases hc : 0 < g1 (isF d (·.costOfGoodsSold)) <;>
      simp [calculateAdvancedRatios, h, hc, JVal.jdiv, g1_ne_zero, JVal.isFin]
  · intro h
    by_cases hr : g0 (isF d (·.revenue)) = 0 <;>
      by_cases hp : 0 < g0 (isF d (·.revenue)) <;>
        simp [calculateAdvancedRatios, h, hr, hp, JVal.jdiv, JVal.isFin]
  · intro h
    by_cases h1 : g0 (isF d (·.grossProfit)) = 0 <;>
      by_cases h2 : 0 < g0 (isF d (·.grossProfit)) <;>
        by_cases h3 : g0 (isF d (·.netProfit)) = 0 <;>
          by_cases h4 : 0 < g0 (isF d (·.netProfit)) <;>
            by_cases h5 : g0 (bsF d (·.receivables)) = 0 <;>
              by_cases h6 : 0 < g0 (bsF d (·.receivables)) <;>
                simp [calculateAdvancedRatios, h, h1, h2, h3, h4, h5, h6,
                  JVal.jdiv, JVal.jscale, JVal.isFin]

/-- Witness for the amended C1 at a concrete input with every guarded
denominator absent and inventory zero. -/
theorem C1_guard_amended_witness :
    (calculateAdvancedRatios { balanceSheet := none, incomeStatement := none }).currentRatio
        = JVal.fin 0 ∧
    (calculateAdvancedRatios { balanceSheet := none, incomeStatement := none }).debtToEquity
        = JVal.fin 0 ∧
    (calculateAdvancedRatios { balanceSheet := none, incomeStatement := none }).inventoryTurnover.isFin
        = false :=
  ⟨((C1_guard_amended { balanceSheet := none, incomeStatement := none }).1 (Or.inl rfl)).1,
   ((C1_guard_amended { balanceSheet := none, incomeStatement := none }).2.1 (Or.inl rfl)).1,
   (C1_guard_amended { balanceSheet := none, incomeStatement := none }).2.2.2.2.2.2.1 rfl⟩

/-- C3: any two flat stored records (extractor output / Mongoose
`extractedData`, which have no `balanceSheet`/`incomeStatement`
sub-objects) produce the same MetricsSet from
`calculateAdvancedRatios`/`calculateAdvancedMetrics`, whatever their
figures: every read falls back to its default, and the constant output has
`inventoryTurnover = Infinity` and `receivablesTurnover`, `grossMargin`,
`netMargin`, `daysSalesOutstanding = NaN`. -/
theorem C3_flat_input_constant (fd1 fd2 : FlatData) :
    calculateAdvancedRatios (flatAsNested fd1) = calculateAdvancedRatios (flatAsNested fd2) ∧
    calculateAdvancedMetrics (flatAsNested fd1) = calculateAdvancedRatios (flatAsNested fd1) ∧
    (calculateAdvancedRatios (flatAsNested fd1)).inventoryTurnover = JVal.inf ∧
    (calculateAdvancedRatios (flatAsNested fd1)).receivablesTurnover = JVal.nan ∧
    (calculateAdvancedRatios (flatAsNested fd1)).grossMargin = JVal.nan ∧
    (calculateAdvancedRatios (flatAsNested fd1)).netMargin = JVal.nan ∧
    (calculateAdvancedRatios (flatAsNested fd1)).daysSalesOutstanding = JVal.nan := by
  refine ⟨rfl, rfl, ?_, ?_, ?_, ?_, ?_⟩ <;>
    simp [calculateAdvancedRatios, flatAsNested, bsF, isF, g0, g1,
      JVal.jdiv, JVal.jscale]

/-- C10: the MetricsSet computation is a pure function (recomputation on
the same data yields identical output), and the save-time mutating
`calculateMetrics` is idempotent: a second application to an unchanged
record leaves the whole record, in particular `workingCapital`,
`debtToEquityRatio`, `currentRatio` and `quickRatio`, identical. -/
theorem C10_metrics_idempotent :
    (∀ d : NestedData, calculateAdvancedRatios d = calculateAdvancedRatios d) ∧
    (∀ e : ExtractedData,
      calculateMetrics (calculateMetrics e) = calculateMetrics e ∧
      (calculateMetrics (calculateMetrics e)).workingCapital
        = (calculateMetrics e).workingCapital ∧
      (calculateMetrics (calculateMetrics e)).debtToEquityRatio
        = (calculateMetrics e).debtToEquityRatio ∧
      (calculateMetrics (calculateMetrics e)).currentRatio
        = (calculateMetrics e).currentRatio ∧
      (calculateMetrics (calculateMetrics e)).quickRatio
        = (calculateMetrics e).quickRatio) := by
  refine ⟨fun _ => rfl, fun e => ?_⟩
  have h : calculateMetrics (calculateMetrics e) = calculateMetrics e := by
    unfold calculateMetrics
    by_cases h1 : 0 < e.totalEquity <;> by_cases h2 : 0 < e.currentLiabilities <;>
      simp [h1, h2]
  exact ⟨h, by rw [h], by rw [h], by rw [h], by rw [h]⟩

/-- C7: with `currentRatio = 0.8`, `debtToEquity = 1.5`,
`debtToAssets = 0.7` the risk endpoint classifies all three dimensions
High and the overall rating High; in general the overall rating is High
iff at least two dimensions are High, Medium iff fewer than two are High
and at least two are Medium, and Low otherwise. -/
theorem C7_risk_classification :
    (liquidityRiskOf (8 / 10) = .high ∧
      solvencyRiskOf (15 / 10) = .high ∧
      assetRiskOf (7 / 10) = .high ∧
      overallRiskOf (liquidityRiskOf (8 / 10)) (solvencyRiskOf (15 / 10))
        (assetRiskOf (7 / 10)) = .high) ∧
    (∀ l s a : Risk,
      (overallRiskOf l s a = .high ↔ 2 ≤ [l, s, a].count Risk.high) ∧
      (overallRiskOf l s a = .medium ↔
        [l, s, a].count Risk.high < 2 ∧ 2 ≤ [l, s, a].count Risk.medium) ∧
      (overallRiskOf l s a = .low ↔
        [l, s, a].count Risk.high < 2 ∧ [l, s, a].count Risk.medium < 2)) := by
  constructor
  · refine ⟨?_, ?_, ?_, ?_⟩ <;>
      simp [liquidityRiskOf, solvencyRiskOf, assetRiskOf, overallRiskOf] <;>
        norm_num
  · intro l s a
    cases l <;> cases s <;> cases a <;>
      refine ⟨?_, ?_, ?_⟩ <;> decide

/-- C5: the validator reports `isValid = false` together with the
"no critical financial data" error exactly when totalAssets,
totalLiabilities and totalEquity are all 0, and `isValid` is the sole
upload-time gate on invoking the AI analysis (the function is total, so it
never throws). -/
theorem C5_validator_fatal_gate (data : FlatData) :
    ((validateFinancialData data).isValid = false ↔
      data.totalAssets = 0 ∧ data.totalLiabilities = 0 ∧ data.totalEquity = 0) ∧
    ("No critical financial data found in PDF" ∈ (validateFinancialData data).errors ↔
      data.totalAssets = 0 ∧ data.totalLiabilities = 0 ∧ data.totalEquity = 0) ∧
    (uploadRunsAnalysis (validateFinancialData data) = true ↔
      ¬(data.totalAssets = 0 ∧ data.totalLiabilities = 0 ∧ data.totalEquity = 0)) := by
  by_cases h : data.totalAssets = 0 ∧ data.totalLiabilities = 0 ∧ data.totalEquity = 0 <;>
    simp [validateFinancialData, uploadRunsAnalysis, h]

/-- C9: the balance-equation warning is emitted exactly when
`|totalLiabilities + totalEquity - totalAssets| > 0.05 * totalAssets`; the
scenario 1000/600/400 yields no balance warning and 1000/600/300 yields
one. -/
theorem C9_balance_warning (data : FlatData) :
    (hasBalanceWarning (validateFinancialData data) = true ↔
      (5 / 100) * data.totalAssets
        < |data.totalLiabilities + data.totalEquity - data.totalAssets|) ∧
    hasBalanceWarning (validateFinancialData
      { totalAssets := 1000, totalLiabilities := 600, totalEquity := 400 }) = false ∧
    hasBalanceWarning (validateFinancialData
      { totalAssets := 1000, totalLiabilities := 600, totalEquity := 300 }) = true := by
  refine ⟨?_, ?_, ?_⟩
  · have key : hasBalanceWarning (validateFinancialData data)
        = decide (data.totalAssets * (5 / 100)
            < |data.totalLiabilities + data.totalEquity - data.totalAssets|) := by
      by_cases h : data.totalAssets * (5 / 100)
          < |data.totalLiabilities + data.totalEquity - data.totalAssets| <;>
        simp [validateFinancialData, hasBalanceWarning, h, List.any_map, Function.comp]
      intro x s q _ _ hx
      subst hx
      rfl
    rw [key]
    simp [mul_comm]
  · simp [validateFinancialData, hasBalanceWarning, FlatData.entries, List.any_map]
    norm_num
  · simp [validateFinancialData, hasBalanceWarning, FlatData.entries, List.any_map]
    norm_num

/-- C2 counterexample: previous-period revenue 0 and current revenue 500
make the computed period-over-period revenue growth `Infinity`, not a
defined sentinel: none of the growth computations guards a zero previous
value. -/
theorem C2_growth_zero_counterexample :
    (trendPair
        { year := 2021
          data := { balanceSheet := none, incomeStatement := some { revenue := some 0 } } }
        { year := 2022
          data := { balanceSheet := none, incomeStatement := some { revenue := some 500 } } }).revenueGrowth
      = JVal.inf := by
  norm_num [trendPair, JVal.jdiv, JVal.jscale, g0, isF, bsF]

/-- C2 amended: the growth computations divide by the raw previous value,
so whenever the previous period's revenue, totalAssets, totalEquity or
totalLiabilities is 0 and the current value is positive, the computed
growth percentage is `Infinity` (never a 0 or "undefined" sentinel).  This
holds for the adjacent-pair trend analysis of the AI-utility module and
for the growth route over stored flat records. -/
theorem C2_growth_zero_amended :
    (∀ previous current : PeriodNested,
      (g0 (isF previous.data (·.revenue)) = 0 →
        0 < g0 (isF current.data (·.revenue)) →
        (trendPair previous current).revenueGrowth = JVal.inf) ∧
      (g0 (bsF previous.data (·.totalAssets)) = 0 →
        0 < g0 (bsF current.data (·.totalAssets)) →
        (trendPair previous current).assetGrowth = JVal.inf) ∧
      (g0 (bsF previous.data (·.totalEquity)) = 0 →
        0 < g0 (bsF current.data (·.totalEquity)) →
        (trendPair previous current).equityGrowth = JVal.inf)) ∧
    (∀ current previous : ExtractedData,
      (previous.totalAssets = 0 → 0 < current.totalAssets →
        (growthMetricsPair current previous).assetGrowth = JVal.inf) ∧
      (previous.totalLiabilities = 0 → 0 < current.totalLiabilities →
        (growthMetricsPair current previous).liabilityGrowth = JVal.inf) ∧
      (previous.totalEquity = 0 → 0 < current.totalEquity →
        (growthMetricsPair current previous).equityGrowth = JVal.inf)) := by
  constructor
  · intro previous current
    refine ⟨?_, ?_, ?_⟩ <;> intro h1 h2 <;>
      norm_num [trendPair, JVal.jdiv, JVal.jscale, h1, h2, h2.ne']
  · intro current previous
    refine ⟨?_, ?_, ?_⟩ <;> intro h1 h2 <;>
      norm_num [growthMetricsPair, JVal.jdiv, JVal.jscale, h1, h2, h2.ne']

/-- Witness for the amended C2 at concrete periods (previous totalAssets
0, current 7). -/
theorem C2_growth_zero_amended_witness :
    (trendPair
        { year := 2021
          data := { balanceSheet := some { totalAssets := some 0 }, incomeStatement := none } }
        { year := 2022
          data := { balanceSheet := some { totalAssets := some 7 }, incomeStatement := none } }).assetGrowth
      = JVal.inf :=
  (C2_growth_zero_amended.1
      { year := 2021
        data := { balanceSheet := some { totalAssets := some 0 }, incomeStatement := none } }
      { year := 2022
        data := { balanceSheet := some { totalAssets := some 7 }, incomeStatement := none } }).2.1
    rfl (by norm_num [g0, bsF])

/-- C4: whenever the AI collaborator call throws (any status or message,
including quota and rate-limit errors) or the API key is absent or empty,
`analyzeFinancialData` returns the deterministic fallback result without
propagating any exception; the fallback carries all six components, with
`advancedMetrics` and `industryBenchmark` computed from the input and
nonempty insight, risk and recommendation lists. -/
theorem C4_analysis_fallback (apiKey : Option String) (ai : Except AIError String)
    (d : NestedData)
    (h : apiKey = none ∨ apiKey = some "" ∨ ∃ e, ai = Except.error e) :
    analyzeFinancialData apiKey ai d = .ok (generateFallbackFinancialAnalysis d) ∧
    (generateFallbackFinancialAnalysis d).advancedMetrics = calculateAdvancedRatios d ∧
    (generateFallbackFinancialAnalysis d).industryBenchmark
      = generateIndustryBenchmark (calculateAdvancedRatios d) ∧
    (generateFallbackFinancialAnalysis d).keyInsights ≠ [] ∧
    (generateFallbackFinancialAnalysis d).riskFactors ≠ [] ∧
    (generateFallbackFinancialAnalysis d).recommendations ≠ [] := by
  refine ⟨?_, rfl, rfl, ?_, ?_, ?_⟩
  · rcases h with h | h | ⟨e, h⟩ <;> subst h <;>
      simp [analyzeFinancialData, ite_self]
  · simp [generateFallbackFinancialAnalysis]
  · simp [generateFallbackFinancialAnalysis]
  · simp [generateFallbackFinancialAnalysis]

/-- Witness for C4: a thrown 429 quota error with no API key still
produces the fallback result. -/
theorem C4_analysis_fallback_witness :
    analyzeFinancialData none (Except.error { status := 429, message := "quota exceeded" })
        { balanceSheet := none, incomeStatement := none }
      = .ok (generateFallbackFinancialAnalysis
          { balanceSheet := none, incomeStatement := none }) :=
  (C4_analysis_fallback none (Except.error { status := 429, message := "quota exceeded" })
      { balanceSheet := none, incomeStatement := none } (Or.inl rfl)).1

/-- C6 counterexample: for total assets 1000000 (oldest), 1100000, 1331000
(newest) over 3 periods, the CAGR computed by the growth route is
`(1331000/1000000)^(1/2) - 1`, which is NOT 0.15 (squaring 1.15 gives
1.3225, not 1.331). -/
theorem C6_cagr_counterexample :
    ¬ routeCagrAssets 1000000 1331000 2 (15 / 100 : ℝ) := by
  intro h
  unfold routeCagrAssets at h
  have hb : ((1331000 : ℚ) : ℝ) / ((1000000 : ℚ) : ℝ) = 1331 / 1000 := by norm_num
  rw [hb] at h
  have hx : ((1331 : ℝ) / 1000) ^ ((1 : ℝ) / ((2 : ℕ) : ℝ)) = 23 / 20 := by linarith
  have h2 : (((1331 : ℝ) / 1000) ^ ((1 : ℝ) / ((2 : ℕ) : ℝ))) ^ (2 : ℕ)
      = (1331 : ℝ) / 1000 := by
    rw [← Real.rpow_natCast (((1331 : ℝ) / 1000) ^ ((1 : ℝ) / ((2 : ℕ) : ℝ))) 2,
      ← Real.rpow_mul (by norm_num)]
    norm_num
  rw [hx] at h2
  norm_num at h2

/-- C6 amended: the growth route computes the assets CAGR by
`(lastValue / firstValue)^(1/(periodCount-1)) - 1`; for 1000000 → 1331000
over 3 periods the value is `√1.331 - 1 ≈ 0.1537` (strictly between 0.153
and 0.154), not 0.15. -/
theorem C6_cagr_amended (y : ℝ) (h : routeCagrAssets 1000000 1331000 2 y) :
    y = Real.sqrt (1331 / 1000) - 1 ∧ (153 / 1000 : ℝ) < y ∧ y < (154 / 1000 : ℝ) := by
  unfold routeCagrAssets at h
  have hb : ((1331000 : ℚ) : ℝ) / ((1000000 : ℚ) : ℝ) = 1331 / 1000 := by norm_num
  rw [hb] at h
  have hs : Real.sqrt ((1331 : ℝ) / 1000)
      = ((1331 : ℝ) / 1000) ^ ((1 : ℝ) / ((2 : ℕ) : ℝ)) := by
    rw [Real.sqrt_eq_rpow]
    norm_num
  have h1 : (1153 / 1000 : ℝ) < Real.sqrt ((1331 : ℝ) / 1000) := by
    rw [Real.lt_sqrt (by norm_num)]
    norm_num
  have h2 : Real.sqrt ((1331 : ℝ) / 1000) < (1154 / 1000 : ℝ) := by
    rw [Real.sqrt_lt' (by norm_num)]
    norm_num
  refine ⟨by rw [h, hs], ?_, ?_⟩ <;> rw [h, ← hs] <;> linarith

/-- Witness for the amended C6 at the scenario's concrete CAGR value. -/
theorem C6_cagr_amended_witness :
    routeCagrAssets 1000000 1331000 2
        ((((1331000 : ℚ) : ℝ) / ((1000000 : ℚ) : ℝ)) ^ ((1 : ℝ) / ((2 : ℕ) : ℝ)) - 1) ∧
    (153 / 1000 : ℝ)
        < (((1331000 : ℚ) : ℝ) / ((1000000 : ℚ) : ℝ)) ^ ((1 : ℝ) / ((2 : ℕ) : ℝ)) - 1 ∧
    (((1331000 : ℚ) : ℝ) / ((1000000 : ℚ) : ℝ)) ^ ((1 : ℝ) / ((2 : ℕ) : ℝ)) - 1
        < (154 / 1000 : ℝ) :=
  ⟨rfl, (C6_cagr_amended _ rfl).2.1, (C6_cagr_amended _ rfl).2.2⟩

theorem firstMatch_isNone (pre : RE) (s : List Char)
    (h : ∀ i, matchCaptureAt pre (s.drop i) = none) : firstMatch pre s = none := by
  induction s with
  | nil => simpa using h 0
  | cons c cs ih =>
    have h0 : matchCaptureAt pre (c :: cs) = none := by simpa using h 0
    rw [firstMatch, h0]
    exact ih fun i => by simpa [List.drop_succ_cons] using h (i + 1)

theorem firstMatch_first (pre : RE) :
    ∀ (s : List Char) (i : ℕ) (cap : List Char),
      matchCaptureAt pre (s.drop i) = some cap →
      (∀ j < i, matchCaptureAt pre (s.drop j) = none) →
      firstMatch pre s = some cap := by
  intro s
  induction s with
  | nil =>
    intro i cap h _
    rw [firstMatch]
    simpa using h
  | cons c cs ih =>
    intro i cap h hmin
    cases i with
    | zero =>
      simp only [List.drop_zero] at h
      rw [firstMatch, h]
    | succ i' =>
      have h0 : matchCaptureAt pre (c :: cs) = none := by
        simpa using hmin 0 (Nat.succ_pos i')
      rw [firstMatch, h0]
      exact ih i' cap (by simpa [List.drop_succ_cons] using h)
        fun j hj => by simpa [List.drop_succ_cons] using hmin (j + 1) (by omega)

/-- C8: per field, the extractor takes the FIRST (leftmost) regex match of
the field's pattern, strips thousands-separator commas and parses the
literal; a field with no match defaults to 0; and on text containing
"Total Assets: ₹1,234,500" the extracted `totalAssets` is 1234500. -/
theorem C8_field_extraction :
    (∀ (pre : RE) (text : List Char),
      (∀ i, matchCaptureAt pre (text.drop i) = none) → extractField pre text = 0) ∧
    (∀ (pre : RE) (text : List Char) (i : ℕ) (cap : List Char),
      matchCaptureAt pre (text.drop i) = some cap →
      (∀ j < i, matchCaptureAt pre (text.drop j) = none) →
      extractField pre text = parseNumOr0 cap) ∧
    (extractFinancialPatterns sampleText.data).totalAssets = 1234500 := by
  refine ⟨?_, ?_, ?_⟩
  · intro pre text h
    simp [extractField, firstMatch_isNone pre text h]
  · intro pre text i cap h hmin
    simp [extractField, firstMatch_first pre text i cap h hmin]
  · show extractField patTotalAssets sampleText.data = 1234500
    have hm : firstMatch patTotalAssets sampleText.data = some ("1,234,500".data) := by
      decide
    simp only [extractField, hm]
    simp [parseNumOr0, parseFloatNum, stripCommas, isDigitComma, List.filter,
      List.takeWhile, List.foldl]
    norm_num

/-- Witness for C8: the sample text matches the totalAssets pattern at
position 0, so the extracted field equals the parsed first capture. -/
theorem C8_field_extraction_witness :
    extractField patTotalAssets sampleText.data = parseNumOr0 ("1,234,500".data) :=
  C8_field_extraction.2.1 patTotalAssets sampleText.data 0 ("1,234,500".data)
    (by decide) (by intro j hj; exact absurd hj (Nat.not_lt_zero j))
